import Mathlib

/-!
Shallow embedding of the reddit_fs virtual-filesystem adapter
(src/main.rs, src/user.rs): the resource codec, the lazily fetched user
registry and post cache, and the four fuse callbacks implemented by
UserFS (lookup, getattr, read, readdir).

External collaborators are modelled as oracles passed in as functions:
the remote profile fetch is a `String → Option User` and the remote
posts fetch a `String → Option (List Submission)`; `none` models an
`APIError`.  `time::get_time()` is the parameter `now` (seconds since
the epoch), and `libc::getuid()` / `libc::getgid()` are the parameters
`uid` / `gid`.  A Rust abort (unwrap, expect, or an explicit abort on an
invalid variant) is modelled by the `FsOutcome.panicked` outcome, and by
`none` in the internal helpers that feed the callbacks.
-/

set_option autoImplicit false

/-- fuse FileType, restricted to the two kinds the adapter uses. -/
inductive FileType where
  | Directory
  | RegularFile
deriving DecidableEq

/-- The semantic resources of the filesystem (enum Resource in src/user.rs). -/
inductive Resource where
  | Top
  | User (idx : Nat)
  | LinkKarma (idx : Nat)
  | CommentKarma (idx : Nat)
  | Username (idx : Nat)
  | Created (idx : Nat)
  | Summary (idx : Nat)
  | UserPosts (idx : Nat)
deriving DecidableEq

/-- Modelled from the spec: the handle packing is performed by the derived
`ENum` instance of the external `e_num` crate, which is not part of this
repository.  The spec fixes the layout: low 5 bits hold the tag, the
remaining 59 bits hold the unsigned index; the `Top` tag is pinned to 1 by
the `constant = 1` attribute in src/user.rs and the remaining tags are
numbered from 2 in declaration order by `start_at = 2`.  Arithmetic is on
`usize`, i.e. modulo 2^64. -/
def Resource.to_num : Resource → Nat
  | .Top => 1
  | .User i => (32 * i + 2) % 2 ^ 64
  | .LinkKarma i => (32 * i + 3) % 2 ^ 64
  | .CommentKarma i => (32 * i + 4) % 2 ^ 64
  | .Username i => (32 * i + 5) % 2 ^ 64
  | .Created i => (32 * i + 6) % 2 ^ 64
  | .Summary i => (32 * i + 7) % 2 ^ 64
  | .UserPosts i => (32 * i + 8) % 2 ^ 64

/-- Modelled from the spec: decoding of a handle by the derived `ENum`
instance (see `Resource.to_num`).  The low 5 bits select the variant and
the remaining bits carry the index; a tag that matches no variant is a
fatal condition in the source (`from_num` aborts), modelled by `none`. -/
def Resource.from_num (n : Nat) : Option Resource :=
  if n % 32 = 1 then some .Top
  else if n % 32 = 2 then some (.User (n / 32))
  else if n % 32 = 3 then some (.LinkKarma (n / 32))
  else if n % 32 = 4 then some (.CommentKarma (n / 32))
  else if n % 32 = 5 then some (.Username (n / 32))
  else if n % 32 = 6 then some (.Created (n / 32))
  else if n % 32 = 7 then some (.Summary (n / 32))
  else if n % 32 = 8 then some (.UserPosts (n / 32))
  else none

/-- The registry index carried by a resource (0 for `Top`, which has none). -/
def Resource.index : Resource → Nat
  | .Top => 0
  | .User i => i
  | .LinkKarma i => i
  | .CommentKarma i => i
  | .Username i => i
  | .Created i => i
  | .Summary i => i
  | .UserPosts i => i

/-- Resource::filetype from src/user.rs. -/
def Resource.filetype : Resource → FileType
  | .Top | .User _ | .UserPosts _ => .Directory
  | .LinkKarma _ | .CommentKarma _ | .Username _ | .Created _ | .Summary _ => .RegularFile

/-- The remote profile record (rawr UserAboutData, the fields the adapter reads). -/
structure UserAboutData where
  name : String
  link_karma : Int
  comment_karma : Int
  created : Int
deriving DecidableEq

/-- struct User from src/user.rs. -/
structure User where
  about : UserAboutData
deriving DecidableEq

/-- An opaque remote post record (rawr Submission); the adapter never reads
its fields. -/
structure Submission where
  raw : Nat
deriving DecidableEq

/-- User::summary from src/user.rs.  `now` is `time::get_time()`; the age is
`Duration::num_days() / 365` where both divisions are Rust `i64` divisions,
truncating toward zero. -/
def User.summary (u : User) (now : Int) : String :=
  let age := Int.tdiv (Int.tdiv (now - u.about.created) 86400) 365
  u.about.name ++ "\n" ++
    "Link Karma: " ++ toString u.about.link_karma ++ "\n" ++
    "Comment Karma: " ++ toString u.about.comment_karma ++ "\n" ++
    "A redditor for " ++ toString age ++ " years\n"

/-- fuse FileAttr; the four timestamps are seconds since the epoch (the
nanosecond component is always 0 in the source). -/
structure FileAttr where
  ino : Nat
  size : Nat
  blocks : Nat
  atime : Int
  mtime : Int
  ctime : Int
  crtime : Int
  kind : FileType
  perm : Nat
  nlink : Nat
  uid : Nat
  gid : Nat
  rdev : Nat
  flags : Nat
deriving DecidableEq

/-- User::timespec from src/user.rs. -/
def User.timespec (u : User) : Int := u.about.created

/-- User::attrs from src/user.rs. -/
def User.attrs (u : User) (ino : Nat) (filetype : FileType) (size : Nat)
    (uid gid : Nat) : FileAttr :=
  { ino := ino, size := size, blocks := size / 512,
    atime := u.timespec, mtime := u.timespec, ctime := u.timespec,
    crtime := u.timespec, kind := filetype, perm := 0o644, nlink := 0,
    uid := uid, gid := gid, rdev := 0, flags := 0 }

/-- struct UserFS from src/user.rs.  The IndexMap of users is an insertion
ordered association list (position = registry index); the HashMap of posts
is an association list as well (its iteration order is never used). -/
structure UserFS where
  users : List (String × User)
  user_posts : List (String × List Submission)
deriving DecidableEq

/-- Rust str::to_lowercase as the source applies it to usernames
(ASCII case folding; implemented as a structural map over the characters
so that it evaluates by kernel reduction). -/
def to_lowercase (s : String) : String := ⟨s.data.map Char.toLower⟩

/-- IndexMap lookup returning the position of the key together with its
value (IndexMap::entry exposes the index of an occupied entry). -/
def lookupIdx : List (String × User) → String → Option (Nat × User)
  | [], _ => none
  | (k, u) :: rest, name =>
    if k = name then some (0, u)
    else (lookupIdx rest name).map (fun p => (p.1 + 1, p.2))

/-- HashMap lookup for the post cache. -/
def lookupPosts : List (String × List Submission) → String → Option (List Submission)
  | [], _ => none
  | (k, v) :: rest, name => if k = name then some v else lookupPosts rest name

/-- UserFS::get_user_by_name from src/user.rs: lowercase the name; an
occupied entry is returned with its index and no remote call; a vacant
entry first fetches the profile (oracle `f`) and on success inserts it at
the next index (the current length); a failed fetch propagates the error
(`none`) and leaves the registry untouched. -/
def UserFS.get_user_by_name (f : String → Option User) (fs : UserFS)
    (name : String) : Option ((Nat × User) × UserFS) :=
  match lookupIdx fs.users (to_lowercase name) with
  | some (i, u) => some ((i, u), fs)
  | none =>
    (f (to_lowercase name)).map fun u =>
      ((fs.users.length, u), ⟨fs.users ++ [((to_lowercase name), u)], fs.user_posts⟩)

/-- UserFS::get_user_by_name instrumented with the number of remote fetch
invocations the call performs (1 exactly when the folded name is vacant). -/
def UserFS.resolveCounted (f : String → Option User) (fs : UserFS)
    (name : String) : Option (Nat × User) × UserFS × Nat :=
  let fetches := if (lookupIdx fs.users (to_lowercase name)).isSome then 0 else 1
  match fs.get_user_by_name f name with
  | some (r, fs') => (some r, fs', fetches)
  | none => (none, fs, fetches)

/-- Resolve the same name `n` times in sequence, accumulating the total
number of remote fetch invocations. -/
def UserFS.resolveN (f : String → Option User) (name : String) :
    UserFS → Nat → UserFS × Nat
  | fs, 0 => (fs, 0)
  | fs, n + 1 =>
    let r := fs.resolveCounted f name
    let p := UserFS.resolveN f name r.2.1 n
    (p.1, r.2.2 + p.2)

/-- UserFS::get_user from src/user.rs; the unwrap on an invalid index is
modelled by `none`. -/
def UserFS.get_user (fs : UserFS) (idx : Nat) : Option User :=
  (fs.users.get? idx).map (fun p => p.2)

/-- UserFS::resource_content from src/user.rs; `none` models the abort on a
directory resource and the abort of get_user on an invalid index. -/
def UserFS.resource_content (fs : UserFS) (now : Int) : Resource → Option String
  | .LinkKarma i => (fs.get_user i).map (fun u => toString u.about.link_karma ++ "\n")
  | .CommentKarma i => (fs.get_user i).map (fun u => toString u.about.comment_karma ++ "\n")
  | .Created i => (fs.get_user i).map (fun u => toString u.about.created ++ "\n")
  | .Username i => (fs.get_user i).map (fun u => u.about.name ++ "\n")
  | .Summary i => (fs.get_user i).map (fun u => u.summary now)
  | _ => none

/-- UserFS::resource_len from src/user.rs: the byte length of the rendered
content for regular files (String::len is the UTF-8 byte length), 0 for
directories. -/
def UserFS.resource_len (fs : UserFS) (now : Int) (r : Resource) : Option Nat :=
  if r.filetype = .RegularFile then
    (fs.resource_content now r).map (fun s => s.utf8ByteSize)
  else
    some 0

/-- UserFS::user_posts from src/user.rs (named apart from the field of the
same name): an occupied cache entry is returned as is; a vacant one first
fetches the recent posts (oracle `fp`) and caches them; a failed fetch
propagates the error and leaves the cache untouched. -/
def UserFS.user_posts_get (fp : String → Option (List Submission)) (fs : UserFS)
    (username : String) : Option (List Submission × UserFS) :=
  match lookupPosts fs.user_posts username with
  | some posts => some (posts, fs)
  | none =>
    (fp username).map fun ps => ((ps, ⟨fs.users, (username, ps) :: fs.user_posts⟩))

/-- lookup_user_resource from src/user.rs. -/
def lookup_user_resource (name : String) (i : Nat) : Option Resource :=
  if name = "linkkarma" then some (.LinkKarma i)
  else if name = "commentkarma" then some (.CommentKarma i)
  else if name = "username" then some (.Username i)
  else if name = "created" then some (.Created i)
  else if name = "summary" then some (.Summary i)
  else if name = "_posts" then some (.UserPosts i)
  else none

/-- The outcome of one fuse callback: a successful reply, an errno error
reply, an abort of the callback (a Rust panic), or a reply object dropped
without answering (the `_ => ()` arm of lookup). -/
inductive FsOutcome (α : Type) where
  | ok : α → FsOutcome α
  | error : Nat → FsOutcome α
  | panicked : FsOutcome α
  | dropped : FsOutcome α
deriving DecidableEq

def ENOENT : Nat := 2
def ENOTDIR : Nat := 20
def EISDIR : Nat := 21

/-- Filesystem::lookup for UserFS from src/user.rs.  A successful reply
carries the ttl (the timespec the source passes) and the entry attributes. -/
def UserFS.lookup (f : String → Option User) (uid gid : Nat) (now : Int)
    (fs : UserFS) (parent : Nat) (name : String) :
    FsOutcome (Int × FileAttr) × UserFS :=
  match Resource.from_num parent with
  | some .Top =>
    match fs.get_user_by_name f name with
    | some ((i, u), fs') =>
      (.ok (u.timespec, u.attrs (Resource.User i).to_num .Directory 0 uid gid), fs')
    | none => (.error ENOENT, fs)
  | some (.User i) =>
    match lookup_user_resource name i with
    | none => (.error ENOENT, fs)
    | some r =>
      match fs.get_user i with
      | none => (.panicked, fs)
      | some u =>
        match fs.resource_len now r with
        | none => (.panicked, fs)
        | some len => (.ok (u.timespec, u.attrs r.to_num r.filetype len uid gid), fs)
  | some _ => (.dropped, fs)
  | none => (.panicked, fs)

/-- The fixed attributes getattr builds inline for the root directory
(src/user.rs, Resource::Top arm of getattr). -/
def top_attr (ino uid gid : Nat) : FileAttr :=
  { ino := ino, size := 0, blocks := 0, atime := 0, mtime := 0,
    ctime := 0, crtime := 0, kind := .Directory, perm := 0o755,
    nlink := 0, uid := uid, gid := gid, rdev := 0, flags := 0 }

/-- Filesystem::getattr for UserFS from src/user.rs. -/
def UserFS.getattr (uid gid : Nat) (now : Int) (fs : UserFS) (ino : Nat) :
    FsOutcome FileAttr :=
  match Resource.from_num ino with
  | none => .panicked
  | some .Top => .ok (top_attr ino uid gid)
  | some r =>
    match fs.get_user r.index with
    | none => .panicked
    | some u =>
      match fs.resource_len now r with
      | none => .panicked
      | some len => .ok (u.attrs ino r.filetype len uid gid)

/-- Filesystem::read for UserFS from src/user.rs: the offset and requested
size parameters are ignored and the whole rendered content is replied. -/
def UserFS.read (now : Int) (fs : UserFS) (ino : Nat) (_offset : Int)
    (_size : Nat) : FsOutcome String :=
  match Resource.from_num ino with
  | none => .panicked
  | some r =>
    match fs.resource_content now r with
    | none => .panicked
    | some s => .ok s

/-- The fixed field file names listed by readdir for a user directory. -/
def fieldNames : List String :=
  ["linkkarma", "commentkarma", "username", "created", "summary", "_posts"]

/-- The two synthetic entries every listing starts with. -/
def baseEntries : List (Nat × FileType × String) :=
  [(1, .Directory, "."), (1, .Directory, "..")]

/-- Filesystem::readdir for UserFS from src/user.rs.  The reply is the list
of (ino, kind, name) entries from `offset` onward.  Note the UserPosts arm:
the source iterates the cached posts with an empty loop body, so no entry
beyond the two synthetic ones is produced; a failed posts fetch aborts the
callback (`expect`).  In the User arm the unwrap of lookup_user_resource
cannot fail on the six fixed names, so the filterMap drops nothing. -/
def UserFS.readdir (fp : String → Option (List Submission)) (fs : UserFS)
    (ino : Nat) (offset : Nat) :
    FsOutcome (List (Nat × FileType × String)) × UserFS :=
  match Resource.from_num ino with
  | none => (.panicked, fs)
  | some .Top =>
    let entries := fs.users.enum.map fun p =>
      ((Resource.User p.1).to_num, FileType.Directory, p.2.1)
    (.ok ((baseEntries ++ entries).drop offset), fs)
  | some (.User idx) =>
    let entries := fieldNames.filterMap fun nm =>
      (lookup_user_resource nm idx).map (fun r => (r.to_num, r.filetype, nm))
    (.ok ((baseEntries ++ entries).drop offset), fs)
  | some (.UserPosts idx) =>
    match fs.get_user idx with
    | none => (.panicked, fs)
    | some u =>
      match fs.user_posts_get fp u.about.name with
      | none => (.panicked, fs)
      | some (_, fs') => (.ok ((baseEntries ++ []).drop offset), fs')
  | some _ => (.error ENOTDIR, fs)

/-! Concrete fixtures used by the witness and counterexample theorems. -/

/-- A concrete remote profile record. -/
def bob : User := ⟨⟨"bob", 5, 7, 1000⟩⟩

/-- A registry holding the single user bob at index 0, empty post cache. -/
def fs0 : UserFS := ⟨[("bob", bob)], []⟩

/-- A registry holding bob with one cached post record. -/
def fs2 : UserFS := ⟨[("bob", bob)], [("bob", [⟨0⟩])]⟩

/-- The empty adapter state. -/
def emptyFS : UserFS := ⟨[], []⟩

/-- A remote profile oracle that always fails. -/
def fetchFail : String → Option User := fun _ => none

/-- A remote profile oracle knowing exactly the folded name "alice". -/
def fetchAlice : String → Option User := fun s => if s = "alice" then some bob else none

/-- A remote posts oracle that always fails. -/
def postsFail : String → Option (List Submission) := fun _ => none

/-! Helper lemmas. -/

theorem pow_facts : (2 : Nat) ^ 59 = 576460752303423488 ∧ (2 : Nat) ^ 64 = 18446744073709551616 := by
  norm_num

theorem from_num_mul_add (i t : Nat) (hi : i < 2 ^ 59) (ht : t < 32) :
    (32 * i + t) % 2 ^ 64 = 32 * i + t ∧ (32 * i + t) % 32 = t ∧ (32 * i + t) / 32 = i := by
  obtain ⟨h59, h64⟩ := pow_facts
  rw [h64]; rw [h59] at hi
  omega

/-! Claim theorems. -/

/-- C1: decoding the handle produced by encoding any valid resource returns
the same resource; the domain of valid resources is those whose registry
index fits the 59 index bits of the handle layout. -/
theorem c1_decode_encode (r : Resource) (h : r.index < 2 ^ 59) :
    Resource.from_num r.to_num = some r := by
  cases r with
  | Top => decide
  | User i =>
    obtain ⟨e1, e2, e3⟩ := from_num_mul_add i 2 (by simpa [Resource.index] using h) (by norm_num)
    simp only [Resource.to_num]
    rw [e1]
    simp [Resource.from_num, e2, e3]
  | LinkKarma i =>
    obtain ⟨e1, e2, e3⟩ := from_num_mul_add i 3 (by simpa [Resource.index] using h) (by norm_num)
    simp only [Resource.to_num]
    rw [e1]
    simp [Resource.from_num, e2, e3]
  | CommentKarma i =>
    obtain ⟨e1, e2, e3⟩ := from_num_mul_add i 4 (by simpa [Resource.index] using h) (by norm_num)
    simp only [Resource.to_num]
    rw [e1]
    simp [Resource.from_num, e2, e3]
  | Username i =>
    obtain ⟨e1, e2, e3⟩ := from_num_mul_add i 5 (by simpa [Resource.index] using h) (by norm_num)
    simp only [Resource.to_num]
    rw [e1]
    simp [Resource.from_num, e2, e3]
  | Created i =>
    obtain ⟨e1, e2, e3⟩ := from_num_mul_add i 6 (by simpa [Resource.index] using h) (by norm_num)
    simp only [Resource.to_num]
    rw [e1]
    simp [Resource.from_num, e2, e3]
  | Summary i =>
    obtain ⟨e1, e2, e3⟩ := from_num_mul_add i 7 (by simpa [Resource.index] using h) (by norm_num)
    simp only [Resource.to_num]
    rw [e1]
    simp [Resource.from_num, e2, e3]
  | UserPosts i =>
    obtain ⟨e1, e2, e3⟩ := from_num_mul_add i 8 (by simpa [Resource.index] using h) (by norm_num)
    simp only [Resource.to_num]
    rw [e1]
    simp [Resource.from_num, e2, e3]

/-- Witness for C1 at the concrete resource Summary 12. -/
theorem c1_decode_encode_witness :
    Resource.from_num (Resource.Summary 12).to_num = some (Resource.Summary 12) :=
  c1_decode_encode (Resource.Summary 12) (by decide)

/-- C9: the handle of the root resource is the reserved fuse root ino,
decimal 1. -/
theorem c9_root_constant : Resource.to_num .Top = 1 := rfl

/-- C4: when the name is not yet registered and the remote profile fetch
fails, lookup under the root replies with the ENOENT error and the adapter
state (registry and post cache) is exactly what it was before the call. -/
theorem c4_failed_fetch_not_found (f : String → Option User) (uid gid : Nat)
    (now : Int) (fs : UserFS) (parent : Nat) (name : String)
    (hparent : Resource.from_num parent = some .Top)
    (hnew : lookupIdx fs.users (to_lowercase name) = none)
    (hf : f (to_lowercase name) = none) :
    fs.lookup f uid gid now parent name = (.error ENOENT, fs) := by
  simp [UserFS.lookup, hparent, UserFS.get_user_by_name, hnew, hf]

/-- Witness for C4: empty registry, failing fetch, lookup of "alice" under
the root. -/
theorem c4_failed_fetch_not_found_witness :
    UserFS.lookup fetchFail 0 0 0 emptyFS 1 "alice" = (.error ENOENT, emptyFS) :=
  c4_failed_fetch_not_found fetchFail 0 0 0 emptyFS 1 "alice" (by decide) (by decide) rfl

theorem lookupIdx_append_self (l : List (String × User)) (k : String) (u : User)
    (h : lookupIdx l k = none) :
    lookupIdx (l ++ [(k, u)]) k = some (l.length, u) := by
  induction l with
  | nil => simp [lookupIdx]
  | cons p rest ih =>
    obtain ⟨k1, u1⟩ := p
    by_cases hk : k1 = k
    · simp [lookupIdx, hk] at h
    · simp only [lookupIdx, hk, if_false, List.cons_append, List.append_eq] at h ⊢
      rw [Option.map_eq_none'] at h
      rw [ih h]
      simp

theorem resolveN_cached (f : String → Option User) (name : String) (fs : UserFS)
    (n : Nat) (h : (lookupIdx fs.users (to_lowercase name)).isSome) :
    UserFS.resolveN f name fs n = (fs, 0) := by
  induction n with
  | zero => rfl
  | succ m ih =>
    obtain ⟨⟨i, u⟩, hp⟩ := Option.isSome_iff_exists.mp h
    simp [UserFS.resolveN, UserFS.resolveCounted, UserFS.get_user_by_name, hp, h, ih]

/-- C3 counterexample: with a remote collaborator whose fetch fails, two
resolutions of the same name invoke the remote fetch twice, not once — the
code only caches successful fetches, so a failed name is re-fetched on
every resolution. -/
theorem c3_counterexample :
    (UserFS.resolveN fetchFail "alice" emptyFS 2).2 = 2 ∧ (2 : Nat) ≠ 1 := by
  exact ⟨by decide, by decide⟩

/-- C3 as amended: when the folded name is not yet registered and its
remote fetch succeeds, resolving it any positive number of times invokes
the remote fetch exactly once, the first resolution returns the next free
index, and a later resolution of a name differing only in case returns the
same index. -/
theorem c3_fetch_once_case_insensitive (f : String → Option User)
    (fs : UserFS) (name name2 : String) (n : Nat) (u : User)
    (hcase : to_lowercase name2 = to_lowercase name)
    (hnew : lookupIdx fs.users (to_lowercase name) = none)
    (hf : f (to_lowercase name) = some u)
    (hn : 1 ≤ n) :
    (UserFS.resolveN f name fs n).2 = 1 ∧
    (fs.resolveCounted f name).1 = some (fs.users.length, u) ∧
    ((fs.resolveCounted f name).2.1.resolveCounted f name2).1 =
      some (fs.users.length, u) := by
  have hres : fs.resolveCounted f name =
      (some (fs.users.length, u),
        ⟨fs.users ++ [((to_lowercase name), u)], fs.user_posts⟩, 1) := by
    simp [UserFS.resolveCounted, UserFS.get_user_by_name, hnew, hf]
  have hocc : lookupIdx (fs.users ++ [((to_lowercase name), u)]) (to_lowercase name) =
      some (fs.users.length, u) := lookupIdx_append_self fs.users (to_lowercase name) u hnew
  refine ⟨?_, ?_, ?_⟩
  · obtain ⟨m, rfl⟩ : ∃ m, n = m + 1 := ⟨n - 1, by omega⟩
    have hrest : UserFS.resolveN f name
        ⟨fs.users ++ [((to_lowercase name), u)], fs.user_posts⟩ m =
        (⟨fs.users ++ [((to_lowercase name), u)], fs.user_posts⟩, 0) :=
      resolveN_cached f name _ m (by simp [hocc])
    simp [UserFS.resolveN, hres, hrest]
  · rw [hres]
  · rw [hres]
    simp [UserFS.resolveCounted, UserFS.get_user_by_name, hcase, hocc]

/-- Witness for the amended C3: resolving "Alice" twice from the empty
state fetches once, and "alice" resolves to the same index 0. -/
theorem c3_fetch_once_case_insensitive_witness :
    (UserFS.resolveN fetchAlice "Alice" emptyFS 2).2 = 1 ∧
    (emptyFS.resolveCounted fetchAlice "Alice").1 = some (emptyFS.users.length, bob) ∧
    ((emptyFS.resolveCounted fetchAlice "Alice").2.1.resolveCounted fetchAlice "alice").1 =
      some (emptyFS.users.length, bob) :=
  c3_fetch_once_case_insensitive fetchAlice emptyFS "Alice" "alice" 2 bob
    (by decide) (by decide) (by decide) (by decide)

/-- C2 counterexample: reading the username field of fs0 (content "bob\n",
4 bytes) at offset 100 with requested length 1 returns the whole content,
not the empty slice the claim requires for an out-of-range offset. -/
theorem c2_counterexample :
    UserFS.read 0 fs0 ((Resource.Username 0).to_num) 100 1 = .ok "bob\n" ∧
    ("bob\n").utf8ByteSize ≤ 100 ∧ ("bob\n" : String) ≠ "" := by
  exact ⟨by decide, by decide, by decide⟩

/-- C2 as amended: for every handle decoding to a Field resource whose
content renders successfully, read replies with the entire rendered
content, ignoring both the offset and the requested length. -/
theorem c2_read_whole_content (fs : UserFS) (now : Int) (ino : Nat)
    (offset : Int) (size : Nat) (r : Resource) (s : String)
    (hdec : Resource.from_num ino = some r)
    (hc : fs.resource_content now r = some s) :
    UserFS.read now fs ino offset size = .ok s := by
  simp [UserFS.read, hdec, hc]

/-- Witness for the amended C2 at the username field of fs0, offset 100,
requested length 1. -/
theorem c2_read_whole_content_witness :
    UserFS.read 0 fs0 5 100 1 = .ok "bob\n" :=
  c2_read_whole_content fs0 0 5 100 1 (Resource.Username 0) "bob\n"
    (by decide) (by decide)

/-- C8 counterexample: reading the root directory handle aborts the
callback (the source hits the abort arm of resource_content) instead of
replying with the EISDIR error. -/
theorem c8_counterexample :
    UserFS.read 0 fs0 1 0 4096 = .panicked ∧
    UserFS.read 0 fs0 1 0 4096 ≠ .error EISDIR := by
  exact ⟨by decide, by decide⟩

/-- C8 as amended: for every handle decoding to a non-Field resource
(Root, a user directory or a posts directory), read aborts the callback (a
panic in the source), rather than replying with the IsADirectory error. -/
theorem c8_read_directory_panics (fs : UserFS) (now : Int) (ino : Nat)
    (offset : Int) (size : Nat) (r : Resource)
    (hdec : Resource.from_num ino = some r)
    (hdir : r.filetype = .Directory) :
    UserFS.read now fs ino offset size = .panicked := by
  cases r <;> simp_all [UserFS.read, Resource.filetype, UserFS.resource_content]

/-- Witness for the amended C8 at the posts directory handle of fs0. -/
theorem c8_read_directory_panics_witness :
    UserFS.read 0 fs0 ((Resource.UserPosts 0).to_num) 0 4096 = .panicked :=
  c8_read_directory_panics fs0 0 ((Resource.UserPosts 0).to_num) 0 4096
    (Resource.UserPosts 0) (by decide) rfl

/-- C5: for every handle decoding to a Field resource whose content
renders successfully, the attribute reply of getattr reports exactly the
UTF-8 byte length of the rendered content as the file size. -/
theorem c5_content_size_agree (fs : UserFS) (now : Int) (uid gid : Nat)
    (ino : Nat) (r : Resource) (s : String)
    (hdec : Resource.from_num ino = some r)
    (hfile : r.filetype = .RegularFile)
    (hc : fs.resource_content now r = some s) :
    ∃ a, UserFS.getattr uid gid now fs ino = .ok a ∧ a.size = s.utf8ByteSize := by
  cases r with
  | Top => simp [Resource.filetype] at hfile
  | User i => simp [Resource.filetype] at hfile
  | UserPosts i => simp [Resource.filetype] at hfile
  | LinkKarma i =>
    simp only [UserFS.resource_content] at hc
    obtain ⟨u, hu, hs⟩ := Option.map_eq_some'.mp hc
    refine ⟨u.attrs ino (Resource.LinkKarma i).filetype s.utf8ByteSize uid gid, ?_, rfl⟩
    simp [UserFS.getattr, hdec, Resource.index, hu, UserFS.resource_len,
      Resource.filetype, UserFS.resource_content, hs]
  | CommentKarma i =>
    simp only [UserFS.resource_content] at hc
    obtain ⟨u, hu, hs⟩ := Option.map_eq_some'.mp hc
    refine ⟨u.attrs ino (Resource.CommentKarma i).filetype s.utf8ByteSize uid gid, ?_, rfl⟩
    simp [UserFS.getattr, hdec, Resource.index, hu, UserFS.resource_len,
      Resource.filetype, UserFS.resource_content, hs]
  | Username i =>
    simp only [UserFS.resource_content] at hc
    obtain ⟨u, hu, hs⟩ := Option.map_eq_some'.mp hc
    refine ⟨u.attrs ino (Resource.Username i).filetype s.utf8ByteSize uid gid, ?_, rfl⟩
    simp [UserFS.getattr, hdec, Resource.index, hu, UserFS.resource_len,
      Resource.filetype, UserFS.resource_content, hs]
  | Created i =>
    simp only [UserFS.resource_content] at hc
    obtain ⟨u, hu, hs⟩ := Option.map_eq_some'.mp hc
    refine ⟨u.attrs ino (Resource.Created i).filetype s.utf8ByteSize uid gid, ?_, rfl⟩
    simp [UserFS.getattr, hdec, Resource.index, hu, UserFS.resource_len,
      Resource.filetype, UserFS.resource_content, hs]
  | Summary i =>
    simp only [UserFS.resource_content] at hc
    obtain ⟨u, hu, hs⟩ := Option.map_eq_some'.mp hc
    refine ⟨u.attrs ino (Resource.Summary i).filetype s.utf8ByteSize uid gid, ?_, rfl⟩
    simp [UserFS.getattr, hdec, Resource.index, hu, UserFS.resource_len,
      Resource.filetype, UserFS.resource_content, hs]

/-- Witness for C5 at the linkkarma field of fs0 (content "5\n", 2 bytes). -/
theorem c5_content_size_agree_witness :
    ∃ a, UserFS.getattr 0 0 0 fs0 3 = .ok a ∧ a.size = ("5\n" : String).utf8ByteSize :=
  c5_content_size_agree fs0 0 0 0 3 (Resource.LinkKarma 0) "5\n"
    (by decide) rfl (by decide)

theorem from_num_one : Resource.from_num 1 = some .Top := by decide

/-- C10: every resource other than the root reports permission mode 0o644,
nlink 0 and the account-creation time of its user as all four timestamps,
while the root reports permission mode 0o755. -/
theorem c10_attr_fields (fs : UserFS) (now : Int) (uid gid : Nat) (ino : Nat)
    (r : Resource) (u : User)
    (hdec : Resource.from_num ino = some r)
    (hne : r ≠ .Top)
    (hu : fs.get_user r.index = some u) :
    (∃ a, UserFS.getattr uid gid now fs ino = .ok a ∧ a.perm = 0o644 ∧
      a.nlink = 0 ∧ a.atime = u.about.created ∧ a.mtime = u.about.created ∧
      a.ctime = u.about.created ∧ a.crtime = u.about.created) ∧
    (∃ a2, UserFS.getattr uid gid now fs 1 = .ok a2 ∧ a2.perm = 0o755) := by
  constructor
  · cases r with
    | Top => exact absurd rfl hne
    | User i =>
      simp only [Resource.index] at hu
      refine ⟨u.attrs ino .Directory 0 uid gid, ?_, rfl, rfl, rfl, rfl, rfl, rfl⟩
      simp [UserFS.getattr, hdec, Resource.index, hu, UserFS.resource_len,
        Resource.filetype]
    | UserPosts i =>
      simp only [Resource.index] at hu
      refine ⟨u.attrs ino .Directory 0 uid gid, ?_, rfl, rfl, rfl, rfl, rfl, rfl⟩
      simp [UserFS.getattr, hdec, Resource.index, hu, UserFS.resource_len,
        Resource.filetype]
    | LinkKarma i =>
      simp only [Resource.index] at hu
      refine ⟨u.attrs ino .RegularFile
        ((toString u.about.link_karma ++ "\n").utf8ByteSize) uid gid,
        ?_, rfl, rfl, rfl, rfl, rfl, rfl⟩
      simp [UserFS.getattr, hdec, Resource.index, hu, UserFS.resource_len,
        Resource.filetype, UserFS.resource_content]
    | CommentKarma i =>
      simp only [Resource.index] at hu
      refine ⟨u.attrs ino .RegularFile
        ((toString u.about.comment_karma ++ "\n").utf8ByteSize) uid gid,
        ?_, rfl, rfl, rfl, rfl, rfl, rfl⟩
      simp [UserFS.getattr, hdec, Resource.index, hu, UserFS.resource_len,
        Resource.filetype, UserFS.resource_content]
    | Username i =>
      simp only [Resource.index] at hu
      refine ⟨u.attrs ino .RegularFile
        ((u.about.name ++ "\n").utf8ByteSize) uid gid,
        ?_, rfl, rfl, rfl, rfl, rfl, rfl⟩
      simp [UserFS.getattr, hdec, Resource.index, hu, UserFS.resource_len,
        Resource.filetype, UserFS.resource_content]
    | Created i =>
      simp only [Resource.index] at hu
      refine ⟨u.attrs ino .RegularFile
        ((toString u.about.created ++ "\n").utf8ByteSize) uid gid,
        ?_, rfl, rfl, rfl, rfl, rfl, rfl⟩
      simp [UserFS.getattr, hdec, Resource.index, hu, UserFS.resource_len,
        Resource.filetype, UserFS.resource_content]
    | Summary i =>
      simp only [Resource.index] at hu
      refine ⟨u.attrs ino .RegularFile ((u.summary now).utf8ByteSize) uid gid,
        ?_, rfl, rfl, rfl, rfl, rfl, rfl⟩
      simp [UserFS.getattr, hdec, Resource.index, hu, UserFS.resource_len,
        Resource.filetype, UserFS.resource_content]
  · exact ⟨top_attr 1 uid gid, by simp [UserFS.getattr, from_num_one], rfl⟩

/-- Witness for C10 at the user directory of fs0 (handle 2 decodes to the
directory of bob at index 0, creation time 1000). -/
theorem c10_attr_fields_witness :
    (∃ a, UserFS.getattr 0 0 0 fs0 2 = .ok a ∧ a.perm = 0o644 ∧
      a.nlink = 0 ∧ a.atime = bob.about.created ∧ a.mtime = bob.about.created ∧
      a.ctime = bob.about.created ∧ a.crtime = bob.about.created) ∧
    (∃ a2, UserFS.getattr 0 0 0 fs0 1 = .ok a2 ∧ a2.perm = 0o755) :=
  c10_attr_fields fs0 0 0 0 2 (Resource.User 0) bob (by decide) (by decide) (by decide)

/-- C6 counterexample: with an uncached posts directory and a failing
remote posts fetch, readdir aborts the callback (the expect in the source)
instead of replying with an empty listing or an error; the cache is indeed
left unchanged. -/
theorem c6_counterexample :
    (fs0.readdir postsFail ((Resource.UserPosts 0).to_num) 0).1 = .panicked ∧
    (fs0.readdir postsFail ((Resource.UserPosts 0).to_num) 0).2 = fs0 := by
  exact ⟨by decide, by decide⟩

/-- C6 as amended: when the posts of a registered user are not cached and
the remote posts fetch fails, listing the posts directory aborts the
callback (a panic in the source) rather than yielding a listing or an
error reply; the post cache is left exactly as it was. -/
theorem c6_posts_fetch_failure_panics (fp : String → Option (List Submission))
    (fs : UserFS) (ino idx : Nat) (offset : Nat) (u : User)
    (hdec : Resource.from_num ino = some (.UserPosts idx))
    (hu : fs.get_user idx = some u)
    (hcache : lookupPosts fs.user_posts u.about.name = none)
    (hfp : fp u.about.name = none) :
    fs.readdir fp ino offset = (.panicked, fs) := by
  simp [UserFS.readdir, hdec, hu, UserFS.user_posts_get, hcache, hfp]

/-- Witness for the amended C6 at the posts directory of fs0 with the
always-failing posts oracle. -/
theorem c6_posts_fetch_failure_panics_witness :
    fs0.readdir postsFail 8 0 = (.panicked, fs0) :=
  c6_posts_fetch_failure_panics postsFail fs0 8 0 0 bob
    (by decide) (by decide) (by decide) rfl

/-- C7 counterexample: fs2 caches exactly one post record for bob, yet
listing the posts directory returns only the two synthetic entries "." and
".." — no entry for the cached post, where the claim requires one entry
per cached record after the synthetic ones. -/
theorem c7_counterexample :
    (fs2.readdir postsFail ((Resource.UserPosts 0).to_num) 0).1 =
      .ok [(1, .Directory, "."), (1, .Directory, "..")] ∧
    lookupPosts fs2.user_posts "bob" = some [⟨0⟩] := by
  exact ⟨by decide, by decide⟩

/-- C7 as amended: listing the posts directory of a registered user whose
posts are cached returns only the two synthetic entries (from the given
offset onward); the cached post records contribute no entries, and the
state is unchanged. -/
theorem c7_posts_listing_synthetic_only (fp : String → Option (List Submission))
    (fs : UserFS) (ino idx : Nat) (offset : Nat) (u : User)
    (posts : List Submission)
    (hdec : Resource.from_num ino = some (.UserPosts idx))
    (hu : fs.get_user idx = some u)
    (hcache : lookupPosts fs.user_posts u.about.name = some posts) :
    fs.readdir fp ino offset = (.ok (baseEntries.drop offset), fs) := by
  simp [UserFS.readdir, hdec, hu, UserFS.user_posts_get, hcache]

/-- Witness for the amended C7 at the posts directory of fs2 (one cached
post record). -/
theorem c7_posts_listing_synthetic_only_witness :
    fs2.readdir postsFail 8 0 = (.ok (baseEntries.drop 0), fs2) :=
  c7_posts_listing_synthetic_only postsFail fs2 8 0 0 bob [⟨0⟩]
    (by decide) (by decide) (by decide)
